import Mathlib

/-!
Shallow embedding of the Beyond-Better desktop control plane
(`dui/src-tauri/src`): the service lifecycle supervisor
(`api.rs`, `bui.rs`, `commands/api_status.rs`, `commands/bui_status.rs`)
and the embedded reverse proxy (`proxy/mod.rs`, `commands/proxy.rs`).

External effects (filesystem PID file, process table, HTTP probes,
signals) are modelled by explicit state and oracles:
* the PID file is an `Option String` (raw file content, `none` = absent);
* the set of live processes is a predicate `Int → Bool`;
* an HTTP GET returning 2xx is an oracle `String → Bool` keyed by URL;
* time advances by one tick at every `sleep` in the source, and the
  oracles of the process/HTTP world are indexed by that tick.
-/

/-- Digits-only parse of a character list to a natural number
(helper for the model of Rust `str::parse::<i32>`). -/
def parseDigits (cs : List Char) : Option Nat :=
  if cs.isEmpty then none
  else if cs.all Char.isDigit then
    some (cs.foldl (fun n c => n * 10 + (c.toNat - 48)) 0)
  else none

/-- Model of Rust `str::parse::<i32>`: optional sign, decimal digits,
value within the i32 range. -/
def parse_i32 (cs : List Char) : Option Int :=
  match cs with
  | '+' :: rest =>
      (parseDigits rest).bind fun n =>
        if n ≤ 2147483647 then some (Int.ofNat n) else none
  | '-' :: rest =>
      (parseDigits rest).bind fun n =>
        if n ≤ 2147483648 then some (-(Int.ofNat n)) else none
  | _ =>
      (parseDigits cs).bind fun n =>
        if n ≤ 2147483647 then some (Int.ofNat n) else none

/-- Model of Rust `str::trim`: strip leading and trailing whitespace. -/
def trimWs (cs : List Char) : List Char :=
  ((cs.dropWhile Char.isWhitespace).reverse.dropWhile
    Char.isWhitespace).reverse

/-- Per-service configuration record consumed from the global config
(hostname, port, `tls.use_tls`), as read by the status checks. -/
structure SvcConfig where
  hostname : String
  port : Nat
  useTls : Bool

/-- Snapshot of the external world a single status check observes:
PID-file content, live processes, and the HTTP-2xx oracle per URL. -/
structure SvcWorld where
  pidFile : Option String
  alive : Int → Bool
  http : String → Bool

/-- Parsed PID of a PID file's content: `fs::read_to_string` followed by
`content.trim().parse::<i32>()`; absent file and parse failure both give
`none` (source `get_pid`). -/
def pidOfFile (pf : Option String) : Option Int :=
  pf.bind fun c => parse_i32 (trimWs c.toList)

/-- Source `get_pid`: read and parse the PID file. -/
def get_pid (w : SvcWorld) : Option Int :=
  pidOfFile w.pidFile

/-- Source `save_api_pid` / `save_bui_pid`: write the PID as text. -/
def save_pid (pid : Int) (w : SvcWorld) : SvcWorld :=
  { w with pidFile := some (toString pid) }

/-- Source `remove_pid`: idempotent removal of the PID file. -/
def remove_pid (w : SvcWorld) : SvcWorld :=
  { w with pidFile := none }

/-- Source `check_process_exists`: signal-0 probe (POSIX) or
query-handle-and-exit-code (Windows), modelled by the live-process
predicate of the world. -/
def check_process_exists (pid : Int) (w : SvcWorld) : Bool :=
  w.alive pid

/-- Health-check URL built by the status checks:
`scheme://hostname:port/api/v1/status`. -/
def statusUrl (scheme hostname : String) (port : Nat) : String :=
  scheme ++ "://" ++ hostname ++ ":" ++ toString port ++ "/api/v1/status"

/-- Source `check_api_responds` (`commands/api_status.rs`): GET the
configured scheme first; on anything but a 2xx (including connection
failure) retry once with the opposite scheme.  Returns the verdict and
the list of URLs actually requested, in order. -/
def check_api_responds (http : String → Bool) (cfg : SvcConfig) :
    Bool × List String :=
  let primaryScheme := if cfg.useTls then "https" else "http"
  let primaryUrl := statusUrl primaryScheme cfg.hostname cfg.port
  if http primaryUrl then (true, [primaryUrl])
  else
    let fallbackScheme := if cfg.useTls then "http" else "https"
    let fallbackUrl := statusUrl fallbackScheme cfg.hostname cfg.port
    (http fallbackUrl, [primaryUrl, fallbackUrl])

/-- Source `check_bui_responds` (`commands/bui_status.rs`): a single GET
with the configured scheme; no fallback to the opposite scheme.
Returns the verdict and the list of URLs actually requested. -/
def check_bui_responds (http : String → Bool) (cfg : SvcConfig) :
    Bool × List String :=
  let scheme := if cfg.useTls then "https" else "http"
  let url := statusUrl scheme cfg.hostname cfg.port
  (http url, [url])

/-- The three-level status record computed fresh per call
(`ApiStatusCheck` in both status modules; `service_responds` stands for
the source's `api_responds` / `bui_responds` field). -/
structure StatusCheck where
  pid_exists : Bool
  process_responds : Bool
  service_responds : Bool
  pid : Option Int
  error : Option String
deriving DecidableEq, Repr

/-- Side-effect log of one status check: whether the process-existence
probe ran and which health URLs were requested. -/
structure ProbeLog where
  procCheck : Bool
  httpUrls : List String
deriving DecidableEq, Repr

/-- Source `check_api_status`: level 1 read the PID file (absent or
unparsable gives the all-false record with no further probe); level 2
process-existence check; level 3, only when the process exists, the
dual-scheme HTTP health check. -/
def check_api_status (cfg : SvcConfig) (w : SvcWorld) :
    StatusCheck × ProbeLog :=
  match get_pid w with
  | none =>
      ({ pid_exists := false, process_responds := false,
         service_responds := false, pid := none, error := none },
       { procCheck := false, httpUrls := [] })
  | some pid =>
      if check_process_exists pid w then
        let r := check_api_responds w.http cfg
        ({ pid_exists := true, process_responds := r.1,
           service_responds := r.1, pid := some pid, error := none },
         { procCheck := true, httpUrls := r.2 })
      else
        ({ pid_exists := false, process_responds := false,
           service_responds := false, pid := some pid, error := none },
         { procCheck := true, httpUrls := [] })

/-- Source `check_bui_status`: same three-level structure as the API
check but with the single-scheme `check_bui_responds` at level 3. -/
def check_bui_status (cfg : SvcConfig) (w : SvcWorld) :
    StatusCheck × ProbeLog :=
  match get_pid w with
  | none =>
      ({ pid_exists := false, process_responds := false,
         service_responds := false, pid := none, error := none },
       { procCheck := false, httpUrls := [] })
  | some pid =>
      if check_process_exists pid w then
        let r := check_bui_responds w.http cfg
        ({ pid_exists := true, process_responds := r.1,
           service_responds := r.1, pid := some pid, error := none },
         { procCheck := true, httpUrls := r.2 })
      else
        ({ pid_exists := false, process_responds := false,
           service_responds := false, pid := some pid, error := none },
         { procCheck := true, httpUrls := [] })

/-- Source `reconcile_api_pid_state`: status plus a re-read of the PID
file, then three mutually exclusive corrective branches (stale-file
removal; warning only; PID-file recovery). -/
def reconcile_api_pid_state (cfg : SvcConfig) (w : SvcWorld) : SvcWorld :=
  let status := (check_api_status cfg w).1
  let pid := get_pid w
  if !status.pid_exists && pid.isSome then
    remove_pid w
  else if status.pid_exists && !status.service_responds then
    w
  else if status.service_responds && pid.isNone then
    match status.pid with
    | some p => save_pid p w
    | none => w
  else w

/-- Source `reconcile_bui_pid_state`: identical branch structure over the
BUI status check. -/
def reconcile_bui_pid_state (cfg : SvcConfig) (w : SvcWorld) : SvcWorld :=
  let status := (check_bui_status cfg w).1
  let pid := get_pid w
  if !status.pid_exists && pid.isSome then
    remove_pid w
  else if status.pid_exists && !status.service_responds then
    w
  else if status.service_responds && pid.isNone then
    match status.pid with
    | some p => save_pid p w
    | none => w
  else w

/-- Condition under which reconciliation removes the PID file: the file
parses to a PID whose process does not exist. -/
def staleRemove (w : SvcWorld) : Bool :=
  match get_pid w with
  | some p => !(w.alive p)
  | none => false

/-- Oracle environment a `start` / `stop` call runs in: whether the
binary search succeeds (`get_bb_api_path` / `get_bb_bui_path`), whether
the log directory can be created, the spawn outcome (`some pid` or a
spawn error), and the time-indexed process, process-listing, HTTP and
signal oracles (one tick per `sleep` in the source). -/
structure Env where
  binFound : Bool
  logDirOk : Bool
  spawnResult : Option Int
  aliveAt : Nat → Int → Bool
  httpAt : Nat → String → Bool
  namedAt : Nat → List Int
  killTermOk : Int → Bool
  killKillOk : Int → Bool

/-- World snapshot at tick `t` with PID-file content `pf`. -/
def mkWorld (env : Env) (t : Nat) (pf : Option String) : SvcWorld :=
  { pidFile := pf, alive := env.aliveAt t, http := env.httpAt t }

/-- Result record of `start_api` / `start_bui`
(`ApiStartResult` / `BuiStartResult`). -/
structure StartResult where
  success : Bool
  pid : Option Int
  error : Option String
  requiresSettings : Bool
deriving DecidableEq, Repr

/-- Outcome of a whole `start` call: the RPC result, the final PID-file
content, and whether a child process was spawned. -/
structure StartOutcome where
  result : StartResult
  pidFile : Option String
  spawned : Bool
deriving DecidableEq, Repr

/-- Health-poll loop of `start_api` (up to 10 attempts of a 500 ms sleep
followed by a status check); the first loop argument is the remaining
fuel, the second the 1-based attempt counter, which doubles as the time
tick. -/
def start_api_poll (cfg : SvcConfig) (env : Env) (pid : Int)
    (pf : Option String) : Nat → Nat → StartOutcome
  | 0, _ =>
      { result := { success := false, pid := some pid,
                    error := some "API process started but failed to respond",
                    requiresSettings := false },
        pidFile := pf, spawned := true }
  | fuel + 1, attempt =>
      let st := (check_api_status cfg (mkWorld env attempt pf)).1
      if st.service_responds then
        { result := { success := true, pid := some pid, error := none,
                      requiresSettings := false },
          pidFile := pf, spawned := true }
      else if attempt == 10 then
        { result := { success := false, pid := some pid,
                      error := some "API process started but not responding after multiple attempts",
                      requiresSettings := false },
          pidFile := pf, spawned := true }
      else
        start_api_poll cfg env pid pf fuel (attempt + 1)

/-- Source `start_api` (`api.rs`): verify the binary exists (else an
error result with `requires_settings = false`), reconcile, return the
existing PID when already responding, otherwise create the log
directory, spawn, persist the PID immediately, and poll health up to 10
times. -/
def start_api (cfg : SvcConfig) (env : Env) (pf0 : Option String) :
    StartOutcome :=
  if !env.binFound then
    { result := { success := false, pid := none,
                  error := some "BB API binary not found",
                  requiresSettings := false },
      pidFile := pf0, spawned := false }
  else
    let pf1 := (reconcile_api_pid_state cfg (mkWorld env 0 pf0)).pidFile
    let status := (check_api_status cfg (mkWorld env 0 pf1)).1
    if status.service_responds then
      { result := { success := true, pid := status.pid, error := none,
                    requiresSettings := false },
        pidFile := pf1, spawned := false }
    else if !env.logDirOk then
      { result := { success := false, pid := none,
                    error := some "Failed to create log directory",
                    requiresSettings := false },
        pidFile := pf1, spawned := false }
    else
      match env.spawnResult with
      | none =>
          { result := { success := false, pid := none,
                        error := some "Failed to start API process",
                        requiresSettings := false },
            pidFile := pf1, spawned := false }
      | some pid =>
          start_api_poll cfg env pid (some (toString pid)) 10 1

/-- Health-poll loop of `start_bui`, identical in structure to
`start_api_poll` over the BUI status check. -/
def start_bui_poll (cfg : SvcConfig) (env : Env) (pid : Int)
    (pf : Option String) : Nat → Nat → StartOutcome
  | 0, _ =>
      { result := { success := false, pid := some pid,
                    error := some "BUI process started but failed to respond",
                    requiresSettings := false },
        pidFile := pf, spawned := true }
  | fuel + 1, attempt =>
      let st := (check_bui_status cfg (mkWorld env attempt pf)).1
      if st.service_responds then
        { result := { success := true, pid := some pid, error := none,
                      requiresSettings := false },
          pidFile := pf, spawned := true }
      else if attempt == 10 then
        { result := { success := false, pid := some pid,
                      error := some "BUI process started but not responding after multiple attempts",
                      requiresSettings := false },
          pidFile := pf, spawned := true }
      else
        start_bui_poll cfg env pid pf fuel (attempt + 1)

/-- Source `start_bui` (`bui.rs`): same orchestration as `start_api`,
except that a missing binary is reported with
`requires_settings = true`. -/
def start_bui (cfg : SvcConfig) (env : Env) (pf0 : Option String) :
    StartOutcome :=
  if !env.binFound then
    { result := { success := false, pid := none,
                  error := some "BB BUI binary not found",
                  requiresSettings := true },
      pidFile := pf0, spawned := false }
  else
    let pf1 := (reconcile_bui_pid_state cfg (mkWorld env 0 pf0)).pidFile
    let status := (check_bui_status cfg (mkWorld env 0 pf1)).1
    if status.service_responds then
      { result := { success := true, pid := status.pid, error := none,
                    requiresSettings := false },
        pidFile := pf1, spawned := false }
    else if !env.logDirOk then
      { result := { success := false, pid := none,
                    error := some "Failed to create log directory",
                    requiresSettings := false },
        pidFile := pf1, spawned := false }
    else
      match env.spawnResult with
      | none =>
          { result := { success := false, pid := none,
                        error := some "Failed to start BUI process",
                        requiresSettings := false },
            pidFile := pf1, spawned := false }
      | some pid =>
          start_bui_poll cfg env pid (some (toString pid)) 10 1

/-- Outcome of `stop_api`: the returned boolean, the final PID-file
content, and the PIDs that received a termination signal. -/
structure ApiStopOutcome where
  result : Bool
  pidFile : Option String
  signaled : List Int
deriving DecidableEq, Repr

/-- Outcome of `stop_bui`: additionally records the process listing
taken after the final settling delay. -/
structure BuiStopOutcome where
  result : Bool
  pidFile : Option String
  signaled : List Int
  remaining : List Int
deriving DecidableEq, Repr

/-- Wait loop of `stop_api`: up to 10 iterations of a 500 ms sleep and a
status re-check; on observing the service gone the PID file is removed
and `true` returned, otherwise the loop falls through to the result of
the original kill call with the PID file untouched. -/
def stop_api_wait (cfg : SvcConfig) (env : Env) (pf0 : Option String)
    (pid : Int) (stopResult : Bool) : Nat → Nat → ApiStopOutcome
  | 0, _ =>
      { result := stopResult, pidFile := pf0, signaled := [pid] }
  | fuel + 1, attempt =>
      let st := (check_api_status cfg (mkWorld env attempt pf0)).1
      if !st.service_responds && !st.pid_exists then
        { result := true, pidFile := none, signaled := [pid] }
      else if attempt == 10 then
        { result := stopResult, pidFile := pf0, signaled := [pid] }
      else
        stop_api_wait cfg env pf0 pid stopResult fuel (attempt + 1)

/-- Source `stop_api` (`api.rs`): one status check; when neither the PID
file's process exists nor the service responds, remove any stale PID
file and return `false`; otherwise send SIGTERM (TerminateProcess on
Windows) to the single PID recorded in the PID file and enter the wait
loop. -/
def stop_api (cfg : SvcConfig) (env : Env) (pf0 : Option String) :
    ApiStopOutcome :=
  let st := (check_api_status cfg (mkWorld env 0 pf0)).1
  if !st.pid_exists && !st.service_responds then
    { result := false, pidFile := none, signaled := [] }
  else
    match st.pid with
    | some pid =>
        let stopResult := env.killTermOk pid
        stop_api_wait cfg env pf0 pid stopResult 10 1
    | none =>
        { result := false, pidFile := pf0, signaled := [] }

/-- Source `robust_terminate_process`: SIGTERM, a 2 s grace sleep and
aliveness re-check, then SIGKILL (TerminateProcess) and a 1 s sleep and
final re-check; returns whether the process is gone, plus the new time
tick. -/
def robust_terminate_process (env : Env) (t : Nat) (pid : Int) :
    Bool × Nat :=
  if env.killTermOk pid then
    if !(env.aliveAt (t + 1) pid) then (true, t + 1)
    else (!(env.aliveAt (t + 2) pid), t + 2)
  else (!(env.aliveAt (t + 1) pid), t + 1)

/-- Sequential termination of each discovered PID in `stop_bui`,
accumulating whether every termination succeeded and advancing the
clock. -/
def stop_bui_terminate (env : Env) :
    List Int → Nat → Bool → Bool × Nat
  | [], t, acc => (acc, t)
  | pid :: rest, t, acc =>
      let r := robust_terminate_process env t pid
      stop_bui_terminate env rest r.2 (acc && r.1)

/-- Source `stop_bui` (`bui.rs`): list every process whose name matches
the BUI binary; when none, remove any stale PID file and return `true`;
otherwise terminate each one, remove the PID file regardless of outcome,
sleep 1 s, re-list, and return `true` only when every termination
succeeded and no matching process remains. -/
def stop_bui (env : Env) (pf0 : Option String) : BuiStopOutcome :=
  let allPids := env.namedAt 0
  if allPids.isEmpty then
    { result := true, pidFile := none, signaled := allPids,
      remaining := env.namedAt 0 }
  else
    let r := stop_bui_terminate env allPids 0 true
    let remaining := env.namedAt (r.2 + 1)
    { result := r.1 && remaining.isEmpty, pidFile := none,
      signaled := allPids, remaining := remaining }

/-- Parsed URL fragment relevant to the proxy: the (normalised) scheme
and the remainder.  Models the behaviour of `reqwest::Url::parse` (the
WHATWG `url` crate) on the inputs the proxy cares about: the scheme is
the run of scheme characters before the first `://`, must start with a
letter, and is lowercased on parse; the remainder must be nonempty and
not itself begin with a slash (an empty host does not parse). -/
structure UrlModel where
  scheme : String
  rest : String
deriving DecidableEq, Repr

/-- Characters admissible in a URL scheme after the leading letter. -/
def isSchemeChar (c : Char) : Bool :=
  c.isAlphanum || c = '+' || c = '-' || c = '.'

/-- ASCII lowercasing of one character (the fragment of Unicode
lowercasing these inputs exercise). -/
def lowerChar (c : Char) : Char :=
  if 65 ≤ c.toNat && c.toNat ≤ 90 then Char.ofNat (c.toNat + 32) else c

/-- ASCII lowercasing of a string. -/
def lowerStr (s : String) : String :=
  String.mk (s.toList.map lowerChar)

/-- Model of Rust `str::starts_with`. -/
def strStartsWith (s pre : String) : Bool :=
  pre.toList.isPrefixOf s.toList

/-- Model of dropping the first `n` characters of a string (the
`strip_prefix` remainders the proxy computes). -/
def strDrop (s : String) (n : Nat) : String :=
  String.mk (s.toList.drop n)

/-- Split a character list at the first occurrence of `needle`,
returning the part before it and the part after it. -/
def breakOnSub (hay needle : List Char) :
    Option (List Char × List Char) :=
  match hay with
  | [] => if needle.isEmpty then some ([], []) else none
  | c :: t =>
      if needle.isPrefixOf (c :: t) then
        some ([], (c :: t).drop needle.length)
      else
        (breakOnSub t needle).map fun pr => (c :: pr.1, pr.2)

/-- Model of `reqwest::Url::parse` (the WHATWG `url` crate) restricted
to what `set_proxy_target` inspects: split at the first `://`, require a
scheme that starts with a letter and consists of scheme characters, and
a nonempty remainder not beginning with a slash (an empty host does not
parse); the scheme is lowercased on parse while the input string itself
is left as written. -/
def urlParse (s : String) : Option UrlModel :=
  match breakOnSub s.toList "://".toList with
  | some (sch, r) =>
      if sch.length > 0
          && ((sch.head?.map Char.isAlpha).getD false)
          && sch.all isSchemeChar
          && r.length > 0 && !(r.take 1 == ['/']) then
        some { scheme := String.mk (sch.map lowerChar), rest := String.mk r }
      else none
  | none => none

/-- Mutable proxy state visible to the commands: the shared target URL,
the debug flag and the bound port (`HttpProxy` fields). -/
structure ProxyState where
  target : String
  debugMode : Bool
  port : Nat
deriving DecidableEq, Repr

/-- Source `set_proxy_target` (`commands/proxy.rs`): parse the URL
(parse failure is an error), reject any scheme other than `https`, and
only then store the caller's original string as the new target. -/
def set_proxy_target (target : String) (st : ProxyState) :
    Except String ProxyState :=
  match urlParse target with
  | none => .error "Invalid target URL"
  | some u =>
      if u.scheme ≠ "https" then
        .error ("Invalid URL scheme: " ++ u.scheme ++
                ". Only HTTPS URLs are allowed.")
      else
        .ok { st with target := target }

/-- Source `FALLBACK_PORTS` (`proxy/mod.rs`): the fixed ordered
candidate port list. -/
def FALLBACK_PORTS : List Nat :=
  [45000, 45001, 45002, 45003, 45004, 45005, 45006, 45007, 45008, 45009]

/-- Source `DEFAULT_TARGET`: the target URL a fresh proxy starts with. -/
def DEFAULT_TARGET : String := "https://chat.beyondbetter.dev"

/-- The kinds of I/O error the construction path distinguishes. -/
inductive IoErrKind where
  | addrInUse
  | other
deriving DecidableEq, Repr

/-- The `for` loop of `HttpProxy::new`: first candidate port the
availability probe accepts. -/
def findPort (ports : List Nat) (avail : Nat → Bool) : Option Nat :=
  match ports with
  | [] => none
  | p :: rest => if avail p then some p else findPort rest avail

/-- Source `HttpProxy::new`: walk `FALLBACK_PORTS` in order and
construct the proxy on the first free port (default target, not yet
running); when every candidate is occupied, fail with an `AddrInUse`
I/O error and produce no proxy. -/
def http_proxy_new (avail : Nat → Bool) : Except IoErrKind ProxyState :=
  match findPort FALLBACK_PORTS avail with
  | some p => .ok { target := DEFAULT_TARGET, debugMode := false, port := p }
  | none => .error .addrInUse

/-- Inbound request as the proxy's handler sees it: path, raw query,
the `Upgrade` header value when present, and the `Sec-WebSocket-Key`
header value when present. -/
structure ProxyReq where
  path : String
  query : Option String
  upgradeHeader : Option String
  wsKey : Option String
deriving DecidableEq, Repr

/-- Query-string suffix as rebuilt by the handler
(`?` plus the raw query, or empty). -/
def queryStr (q : Option String) : String :=
  match q with
  | some s => "?" ++ s
  | none => ""

/-- Substring containment on character lists (helper for the model of
Rust `str::contains`). -/
def containsSub (hay needle : List Char) : Bool :=
  match hay with
  | [] => needle.isEmpty
  | c :: t => needle.isPrefixOf (c :: t) || containsSub t needle

/-- Source `HttpProxy::is_websocket_request`: the `Upgrade` header,
lowercased, contains `websocket`. -/
def is_websocket_request (req : ProxyReq) : Bool :=
  match req.upgradeHeader with
  | some h => containsSub (lowerStr h).toList "websocket".toList
  | none => false

/-- WebSocket target computed by `handle_websocket_request`: a target
literally starting with `https://` is rewritten to `wss://`; any other
target is rewritten to `ws://` (stripping a literal `http://` prefix
when present), with no HTTPS requirement. -/
def ws_target_url (target path query : String) : String :=
  if strStartsWith target "https://" then
    "wss://" ++ strDrop target 8 ++ path ++ query
  else if strStartsWith target "http://" then
    "ws://" ++ strDrop target 7 ++ path ++ query
  else
    "ws://" ++ target ++ path ++ query

/-- What `HttpProxy::handle_request` does with an inbound request:
answer the internal health path directly, hand websocket upgrades to
the websocket path (which dials `wsTarget`), synthesize the 500
maintenance page without forwarding when the resolved plain-HTTP target
is not `https://`, or forward to the resolved URL. -/
inductive ProxyAction where
  | healthCheck
  | wsForward (wsTarget : String)
  | reject500
  | httpForward (url : String)
deriving DecidableEq, Repr

/-- Source `HttpProxy::handle_request` (`proxy/mod.rs`): the dispatch
described at `ProxyAction`, with the target read from the shared state
and path plus query concatenated onto it. -/
def handle_request (target : String) (req : ProxyReq) : ProxyAction :=
  if req.path = "/_health" then
    .healthCheck
  else if is_websocket_request req then
    .wsForward (ws_target_url target req.path (queryStr req.query))
  else
    let url := target ++ req.path ++ queryStr req.query
    if !(strStartsWith url "https://") then
      .reject500
    else
      .httpForward url

/-- WebSocket frames as forwarded by the proxy (tungstenite `Message`;
payloads as byte lists). -/
inductive WsMsg where
  | text (s : String)
  | binary (d : List Nat)
  | ping (d : List Nat)
  | pong (d : List Nat)
  | close
deriving DecidableEq, Repr

/-- Whether a frame is a Ping. -/
def WsMsg.isPing : WsMsg → Bool
  | .ping _ => true
  | _ => false

/-- Source upstream-to-client forwarding loop (`server_to_client` in
`handle_websocket_request`): a Ping from the upstream is answered by a
Pong with the same payload sent to the client, a Pong is swallowed, a
Close ends the loop, and every other frame is relayed verbatim.  The
model maps the stream of frames read from the upstream to the stream of
frames written to the client. -/
def server_to_client_forward : List WsMsg → List WsMsg
  | [] => []
  | .ping d :: rest => .pong d :: server_to_client_forward rest
  | .pong _ :: rest => server_to_client_forward rest
  | .close :: _ => []
  | m :: rest => m :: server_to_client_forward rest

/-- A concrete service configuration used by witnesses. -/
def cfgX : SvcConfig :=
  { hostname := "localhost", port := 8080, useTls := false }

/-- A concrete world with no PID file, no live process, and a responding
endpoint on every URL. -/
def wNoFile : SvcWorld :=
  { pidFile := none, alive := fun _ => false, http := fun _ => true }

/-- HTTP oracle answering 2xx only on the https status URL of `cfgX`. -/
def httpsOnly : String → Bool :=
  fun url => url == "https://localhost:8080/api/v1/status"

/-- The caller-visible effect of `set_proxy_target` on the stored
state: the write happens only when validation passed (on the error path
the source returns before touching the shared target). -/
def apply_set_target (target : String) (st : ProxyState) : ProxyState :=
  match set_proxy_target target st with
  | .ok next => next
  | .error _ => st

/-- A concrete proxy state used by witnesses. -/
def stX : ProxyState :=
  { target := "https://chat.beyondbetter.dev", debugMode := false,
    port := 45000 }

/-- A concrete WebSocket upgrade request. -/
def reqWsX : ProxyReq :=
  { path := "/ws", query := none, upgradeHeader := some "websocket",
    wsKey := some "k" }

/-- A concrete plain HTTP request. -/
def reqPlainX : ProxyReq :=
  { path := "/a", query := none, upgradeHeader := none, wsKey := none }

/-- Availability oracle with exactly one free candidate port. -/
def availOne : Nat → Bool := fun p => p == 45003

/-- Availability oracle with every port occupied. -/
def availNone : Nat → Bool := fun _ => false

/-- The proxy state `http_proxy_new` constructs under `availOne`. -/
def prOne : ProxyState :=
  { target := DEFAULT_TARGET, debugMode := false, port := 45003 }

/-- Environment for the stop counterexample: two live processes match
the binary name, the service responds, the PID file names one of them,
and the kill calls report success while neither process ever exits. -/
def envStuck : Env :=
  { binFound := true, logDirOk := true, spawnResult := none,
    aliveAt := fun _ p => p == 10 || p == 20,
    httpAt := fun _ _ => true,
    namedAt := fun _ => [10, 20],
    killTermOk := fun _ => true,
    killKillOk := fun _ => true }

/-- Environment with the service binary missing. -/
def envNoBin : Env :=
  { binFound := false, logDirOk := true, spawnResult := none,
    aliveAt := fun _ _ => false,
    httpAt := fun _ _ => false,
    namedAt := fun _ => [],
    killTermOk := fun _ => false,
    killKillOk := fun _ => false }

/-- Environment for the second-start witness: process 42 is alive and
the service answers on every URL. -/
def envUp : Env :=
  { binFound := true, logDirOk := true, spawnResult := none,
    aliveAt := fun _ p => p == 42,
    httpAt := fun _ _ => true,
    namedAt := fun _ => [42],
    killTermOk := fun _ => true,
    killKillOk := fun _ => true }

/-- A concrete world whose PID file is present but unparsable while the
endpoint answers on every URL. -/
def wGarbage : SvcWorld :=
  { pidFile := some "garbage", alive := fun _ => false,
    http := fun _ => true }

/-- Theorem C4: for both services, with no PID file present the status
check returns `pid = none` and all three booleans false, runs no
process-existence probe and issues no HTTP request. -/
theorem c4_status_short_circuit (cfg : SvcConfig) (w : SvcWorld)
    (h : w.pidFile = none) :
    check_api_status cfg w =
      ({ pid_exists := false, process_responds := false,
         service_responds := false, pid := none, error := none },
       { procCheck := false, httpUrls := [] }) ∧
    check_bui_status cfg w =
      ({ pid_exists := false, process_responds := false,
         service_responds := false, pid := none, error := none },
       { procCheck := false, httpUrls := [] }) := by
  have hp : get_pid w = none := by
    simp [get_pid, pidOfFile, h]
  constructor <;> simp [check_api_status, check_bui_status, hp]

/-- Witness for C4 at a concrete world. -/
theorem c4_status_short_circuit_witness :
    wNoFile.pidFile = none ∧
    check_api_status cfgX wNoFile =
      ({ pid_exists := false, process_responds := false,
         service_responds := false, pid := none, error := none },
       { procCheck := false, httpUrls := [] }) ∧
    check_bui_status cfgX wNoFile =
      ({ pid_exists := false, process_responds := false,
         service_responds := false, pid := none, error := none },
       { procCheck := false, httpUrls := [] }) :=
  ⟨rfl, c4_status_short_circuit cfgX wNoFile rfl⟩

/-- No frame written to the client by the upstream-to-client loop is a
Ping. -/
lemma server_to_client_forward_no_ping (msgs : List WsMsg) :
    (server_to_client_forward msgs).all (fun m => !m.isPing) = true := by
  induction msgs with
  | nil => rfl
  | cons m t ih =>
      cases m with
      | text s => simpa [server_to_client_forward, WsMsg.isPing] using ih
      | binary d => simpa [server_to_client_forward, WsMsg.isPing] using ih
      | ping d => simpa [server_to_client_forward, WsMsg.isPing] using ih
      | pong d => simpa [server_to_client_forward, WsMsg.isPing] using ih
      | close => rfl

/-- Theorem C10: in the upstream-to-client forwarding loop, a Ping from
the upstream yields a Pong with the same payload sent to the client, a
Pong from the upstream is forwarded to no one, a Close terminates the
loop, and no Ping frame is ever forwarded to the client. -/
theorem c10_upstream_ping_pong (d : List Nat) (rest : List WsMsg) :
    server_to_client_forward (.ping d :: rest) =
      .pong d :: server_to_client_forward rest ∧
    server_to_client_forward (.pong d :: rest) =
      server_to_client_forward rest ∧
    server_to_client_forward (.close :: rest) = [] ∧
    ∀ msgs : List WsMsg,
      (server_to_client_forward msgs).all (fun m => !m.isPing) = true :=
  ⟨rfl, rfl, rfl, server_to_client_forward_no_ping⟩

/-- Amended C7: the API health check requests the configured scheme
first and retries once with the opposite scheme, healthy iff either
attempt is 2xx; the BUI health check issues a single request with the
configured scheme only, healthy iff that one attempt is 2xx. -/
theorem c7_amended_health_check (http : String → Bool) (cfg : SvcConfig) :
    check_api_responds http cfg =
      (http (statusUrl (if cfg.useTls then "https" else "http")
              cfg.hostname cfg.port)
        || http (statusUrl (if cfg.useTls then "http" else "https")
              cfg.hostname cfg.port),
       if http (statusUrl (if cfg.useTls then "https" else "http")
              cfg.hostname cfg.port)
       then [statusUrl (if cfg.useTls then "https" else "http")
              cfg.hostname cfg.port]
       else [statusUrl (if cfg.useTls then "https" else "http")
              cfg.hostname cfg.port,
             statusUrl (if cfg.useTls then "http" else "https")
              cfg.hostname cfg.port]) ∧
    check_bui_responds http cfg =
      (http (statusUrl (if cfg.useTls then "https" else "http")
              cfg.hostname cfg.port),
       [statusUrl (if cfg.useTls then "https" else "http")
              cfg.hostname cfg.port]) := by
  constructor
  · unfold check_api_responds
    cases h : http (statusUrl (if cfg.useTls then "https" else "http")
        cfg.hostname cfg.port) <;> simp [h]
  · rfl

/-- Counterexample to C7 as stated: with TLS off and a service
answering only on https, the opposite-scheme retry makes the API check
healthy, but the BUI check has no retry and reports unhealthy — so the
claimed fallback does not hold for every service. -/
theorem c7_counterexample :
    cfgX.useTls = false ∧
    httpsOnly (statusUrl "https" "localhost" 8080) = true ∧
    (check_api_responds httpsOnly cfgX).1 = true ∧
    (check_bui_responds httpsOnly cfgX).1 = false := by
  refine ⟨rfl, by decide, by decide, by decide⟩

/-- Theorem C8: `set_proxy_target` rejects a URL that fails to parse or
whose scheme is not https before any state change (the previous target
stays in effect), and for an https URL it succeeds and stores exactly
the caller's string. -/
theorem c8_set_target (url : String) (st : ProxyState) :
    (urlParse url = none →
       set_proxy_target url st = .error "Invalid target URL" ∧
       apply_set_target url st = st) ∧
    (∀ u, urlParse url = some u → u.scheme ≠ "https" →
       set_proxy_target url st =
         .error ("Invalid URL scheme: " ++ u.scheme ++
                 ". Only HTTPS URLs are allowed.") ∧
       apply_set_target url st = st) ∧
    (∀ u, urlParse url = some u → u.scheme = "https" →
       set_proxy_target url st = .ok { st with target := url } ∧
       apply_set_target url st = { st with target := url }) := by
  refine ⟨?_, ?_, ?_⟩
  · intro h
    simp [set_proxy_target, apply_set_target, h]
  · intro u hu hs
    simp [set_proxy_target, apply_set_target, hu, hs]
  · intro u hu hs
    simp [set_proxy_target, apply_set_target, hu, hs]

/-- Witness for C8 at three concrete URLs: unparsable, http, https. -/
theorem c8_set_target_witness :
    (set_proxy_target "notaurl" stX = .error "Invalid target URL" ∧
     apply_set_target "notaurl" stX = stX) ∧
    (set_proxy_target "http://insecure.example" stX =
       .error ("Invalid URL scheme: " ++ "http" ++
               ". Only HTTPS URLs are allowed.") ∧
     apply_set_target "http://insecure.example" stX = stX) ∧
    (set_proxy_target "https://ok.example" stX =
       .ok { stX with target := "https://ok.example" } ∧
     apply_set_target "https://ok.example" stX =
       { stX with target := "https://ok.example" }) :=
  ⟨(c8_set_target "notaurl" stX).1 (by decide),
   (c8_set_target "http://insecure.example" stX).2.1
     { scheme := "http", rest := "insecure.example" } (by decide) (by decide),
   (c8_set_target "https://ok.example" stX).2.2
     { scheme := "https", rest := "ok.example" } (by decide) rfl⟩

/-- A successful `findPort` result is a member of the candidate list,
is available, and no earlier (smaller, for a sorted list) candidate is
available. -/
lemma findPort_spec (avail : Nat → Bool) :
    ∀ l : List Nat, l.Pairwise (· < ·) → ∀ p, findPort l avail = some p →
      p ∈ l ∧ avail p = true ∧ ∀ q ∈ l, q < p → avail q = false := by
  intro l
  induction l with
  | nil =>
      intro _ p h
      simp [findPort] at h
  | cons x xs ih =>
      intro hsort p h
      rw [show findPort (x :: xs) avail
            = if avail x then some x else findPort xs avail from rfl] at h
      cases hx : avail x with
      | true =>
          rw [hx] at h
          simp at h
          subst h
          refine ⟨List.mem_cons_self x xs, hx, ?_⟩
          intro q hq hlt
          rcases List.mem_cons.mp hq with rfl | hq'
          · exact absurd hlt (lt_irrefl q)
          · exact absurd hlt
              (not_lt_of_gt ((List.pairwise_cons.mp hsort).1 q hq'))
      | false =>
          rw [hx] at h
          simp at h
          obtain ⟨hp, ha, hall⟩ :=
            ih (List.pairwise_cons.mp hsort).2 p h
          refine ⟨List.mem_cons_of_mem x hp, ha, ?_⟩
          intro q hq hlt
          rcases List.mem_cons.mp hq with rfl | hq'
          · exact hx
          · exact hall q hq' hlt

/-- When no candidate is available, `findPort` finds nothing. -/
lemma findPort_none (avail : Nat → Bool) :
    ∀ l : List Nat, (∀ p ∈ l, avail p = false) → findPort l avail = none := by
  intro l
  induction l with
  | nil => intro _; rfl
  | cons x xs ih =>
      intro h
      rw [show findPort (x :: xs) avail
            = if avail x then some x else findPort xs avail from rfl,
          h x (List.mem_cons_self x xs)]
      simpa using ih fun p hp => h p (List.mem_cons_of_mem x hp)

/-- Theorem C9: proxy construction yields the lowest-numbered free port
of the fixed candidate list (with the default target), and when every
candidate is occupied it fails with an `AddrInUse` error and produces no
proxy. -/
theorem c9_port_selection (avail : Nat → Bool) :
    (∀ pr : ProxyState, http_proxy_new avail = .ok pr →
       pr.port ∈ FALLBACK_PORTS ∧ avail pr.port = true ∧
       pr.target = DEFAULT_TARGET ∧
       ∀ q ∈ FALLBACK_PORTS, q < pr.port → avail q = false) ∧
    ((∀ p ∈ FALLBACK_PORTS, avail p = false) →
       http_proxy_new avail = .error IoErrKind.addrInUse) := by
  constructor
  · intro pr h
    unfold http_proxy_new at h
    cases hf : findPort FALLBACK_PORTS avail with
    | none =>
        rw [hf] at h
        exact absurd h (by simp)
    | some p =>
        rw [hf] at h
        simp at h
        obtain ⟨hp, ha, hall⟩ :=
          findPort_spec avail FALLBACK_PORTS (by decide) p hf
        rw [← h]
        exact ⟨hp, ha, rfl, hall⟩
  · intro h
    unfold http_proxy_new
    rw [findPort_none avail FALLBACK_PORTS h]

/-- Witness for C9: with only port 45003 free, construction picks it;
with nothing free, construction fails with `AddrInUse`. -/
theorem c9_port_selection_witness :
    prOne.port ∈ FALLBACK_PORTS ∧ availOne prOne.port = true ∧
    prOne.target = DEFAULT_TARGET ∧
    http_proxy_new availNone = .error IoErrKind.addrInUse := by
  have h := (c9_port_selection availOne).1 prOne (by rfl)
  exact ⟨h.1, h.2.1, h.2.2.1, (c9_port_selection availNone).2 (by decide)⟩

/-- Amended C5: for both services, reconcile's only effect on the PID
file is removal, and removal happens exactly when the file content
parses to a PID whose process does not exist; reconcile never writes a
PID file (its recovery branch is unreachable, because the status check
only probes the service when the PID file parses and its process is
alive, so `service_responds` cannot be true while the file is absent).
In particular a present-but-unparsable file is kept, and a responding
service with no PID file gets none written. -/
theorem c5_amended_reconcile (cfg : SvcConfig) (w : SvcWorld) :
    (reconcile_api_pid_state cfg w).pidFile =
      (if staleRemove w then none else w.pidFile) ∧
    (reconcile_bui_pid_state cfg w).pidFile =
      (if staleRemove w then none else w.pidFile) := by
  cases hg : get_pid w with
  | none =>
      constructor <;>
        simp [reconcile_api_pid_state, reconcile_bui_pid_state,
          check_api_status, check_bui_status, staleRemove, hg]
  | some p =>
      cases ha : w.alive p with
      | true =>
          constructor <;>
            simp [reconcile_api_pid_state, reconcile_bui_pid_state,
              check_api_status, check_bui_status, staleRemove,
              check_process_exists, hg, ha]
      | false =>
          constructor <;>
            simp [reconcile_api_pid_state, reconcile_bui_pid_state,
              check_api_status, check_bui_status, staleRemove,
              check_process_exists, remove_pid, hg, ha]

/-- Counterexample to C5 as stated: a present-but-unparsable PID file
has `pid_exists = false` yet is not removed, and a responding service
with no PID file beforehand gets no PID file written. -/
theorem c5_counterexample :
    wGarbage.pidFile = some "garbage" ∧
    (check_api_status cfgX wGarbage).1.pid_exists = false ∧
    (reconcile_api_pid_state cfgX wGarbage).pidFile = some "garbage" ∧
    (reconcile_bui_pid_state cfgX wGarbage).pidFile = some "garbage" ∧
    wNoFile.pidFile = none ∧
    (check_api_responds wNoFile.http cfgX).1 = true ∧
    (check_bui_responds wNoFile.http cfgX).1 = true ∧
    (reconcile_api_pid_state cfgX wNoFile).pidFile = none ∧
    (reconcile_bui_pid_state cfgX wNoFile).pidFile = none := by
  refine ⟨rfl, by decide, by decide, by decide, rfl,
    by decide, by decide, by decide, by decide⟩

/-- Amended C2: with the executable missing, both starts return a
failure result immediately with no reconcile effect, no spawn and no
PID-file change; `start_bui` reports it with `requires_settings = true`
as claimed, while `start_api` reports `requires_settings = false`. -/
theorem c2_amended_missing_binary (cfg : SvcConfig) (env : Env)
    (pf0 : Option String) (h : env.binFound = false) :
    start_bui cfg env pf0 =
      { result := { success := false, pid := none,
                    error := some "BB BUI binary not found",
                    requiresSettings := true },
        pidFile := pf0, spawned := false } ∧
    start_api cfg env pf0 =
      { result := { success := false, pid := none,
                    error := some "BB API binary not found",
                    requiresSettings := false },
        pidFile := pf0, spawned := false } := by
  constructor <;> simp [start_bui, start_api, h]

/-- Witness for the amended C2 at a concrete environment. -/
theorem c2_amended_missing_binary_witness :
    start_bui cfgX envNoBin (some "7") =
      { result := { success := false, pid := none,
                    error := some "BB BUI binary not found",
                    requiresSettings := true },
        pidFile := some "7", spawned := false } ∧
    start_api cfgX envNoBin (some "7") =
      { result := { success := false, pid := none,
                    error := some "BB API binary not found",
                    requiresSettings := false },
        pidFile := some "7", spawned := false } :=
  c2_amended_missing_binary cfgX envNoBin (some "7") rfl

/-- Counterexample to C2 as stated: with the API binary missing,
`start_api` returns `requires_settings = false`, not `true`. -/
theorem c2_counterexample :
    envNoBin.binFound = false ∧
    (start_api cfgX envNoBin none).result.success = false ∧
    (start_api cfgX envNoBin none).result.requiresSettings = false := by
  refine ⟨rfl, by decide, by decide⟩

/-- Status of a service whose PID file parses to a live process. -/
lemma check_api_status_running (cfg : SvcConfig) (w : SvcWorld) (p : Int)
    (h1 : get_pid w = some p) (h2 : w.alive p = true) :
    (check_api_status cfg w).1 =
      { pid_exists := true,
        process_responds := (check_api_responds w.http cfg).1,
        service_responds := (check_api_responds w.http cfg).1,
        pid := some p, error := none } := by
  simp [check_api_status, check_process_exists, h1, h2]

/-- BUI version of `check_api_status_running`. -/
lemma check_bui_status_running (cfg : SvcConfig) (w : SvcWorld) (p : Int)
    (h1 : get_pid w = some p) (h2 : w.alive p = true) :
    (check_bui_status cfg w).1 =
      { pid_exists := true,
        process_responds := (check_bui_responds w.http cfg).1,
        service_responds := (check_bui_responds w.http cfg).1,
        pid := some p, error := none } := by
  simp [check_bui_status, check_process_exists, h1, h2]

/-- Reconcile is a no-op on a healthy service (PID file parses, process
alive, endpoint responding). -/
lemma reconcile_api_noop (cfg : SvcConfig) (w : SvcWorld) (p : Int)
    (h1 : get_pid w = some p) (h2 : w.alive p = true)
    (h3 : (check_api_responds w.http cfg).1 = true) :
    reconcile_api_pid_state cfg w = w := by
  simp [reconcile_api_pid_state, check_api_status, check_process_exists,
    h1, h2, h3]

/-- BUI version of `reconcile_api_noop`. -/
lemma reconcile_bui_noop (cfg : SvcConfig) (w : SvcWorld) (p : Int)
    (h1 : get_pid w = some p) (h2 : w.alive p = true)
    (h3 : (check_bui_responds w.http cfg).1 = true) :
    reconcile_bui_pid_state cfg w = w := by
  simp [reconcile_bui_pid_state, check_bui_status, check_process_exists,
    h1, h2, h3]

/-- Theorem C3: when a previous start left the service responding (PID
file parses to `p`, process `p` alive, endpoint responding), a second
start performs no spawn for either service: it returns success carrying
the recorded PID and leaves the PID file untouched. -/
theorem c3_second_start_no_spawn (cfg : SvcConfig) (env : Env)
    (pf0 : Option String) (p : Int)
    (hbin : env.binFound = true)
    (hpid : pidOfFile pf0 = some p)
    (halive : env.aliveAt 0 p = true)
    (hapi : (check_api_responds (env.httpAt 0) cfg).1 = true)
    (hbui : (check_bui_responds (env.httpAt 0) cfg).1 = true) :
    start_api cfg env pf0 =
      { result := { success := true, pid := some p, error := none,
                    requiresSettings := false },
        pidFile := pf0, spawned := false } ∧
    start_bui cfg env pf0 =
      { result := { success := true, pid := some p, error := none,
                    requiresSettings := false },
        pidFile := pf0, spawned := false } := by
  have h1 : get_pid (mkWorld env 0 pf0) = some p := by
    simpa [get_pid, mkWorld] using hpid
  have h2 : (mkWorld env 0 pf0).alive p = true := by
    simpa [mkWorld] using halive
  have hrecA := reconcile_api_noop cfg (mkWorld env 0 pf0) p h1 h2
    (by simpa [mkWorld] using hapi)
  have hrecB := reconcile_bui_noop cfg (mkWorld env 0 pf0) p h1 h2
    (by simpa [mkWorld] using hbui)
  have hstA := check_api_status_running cfg (mkWorld env 0 pf0) p h1 h2
  have hstB := check_bui_status_running cfg (mkWorld env 0 pf0) p h1 h2
  constructor
  · unfold start_api
    rw [hbin]
    simp only [mkWorld] at hrecA hstA
    simp [mkWorld, hrecA, hstA, hapi]
  · unfold start_bui
    rw [hbin]
    simp only [mkWorld] at hrecB hstB
    simp [mkWorld, hrecB, hstB, hbui]

/-- Witness for C3: a concrete healthy world in which both second
starts return the recorded PID 42 without spawning. -/
theorem c3_second_start_no_spawn_witness :
    start_api cfgX envUp (some "42") =
      { result := { success := true, pid := some 42, error := none,
                    requiresSettings := false },
        pidFile := some "42", spawned := false } ∧
    start_bui cfgX envUp (some "42") =
      { result := { success := true, pid := some 42, error := none,
                    requiresSettings := false },
        pidFile := some "42", spawned := false } :=
  c3_second_start_no_spawn cfgX envUp (some "42") 42 rfl (by decide)
    (by decide) (by decide) (by decide)

/-- Amended C6: the plain-HTTP path forwards only to URLs literally
starting with `https://` and synthesizes the 500 maintenance page
otherwise; the WebSocket path performs no HTTPS check — it rewrites a
target starting with `https://` to `wss://`, while any other target
(including ones accepted by `set_proxy_target`, whose scheme check is
case-insensitive) is dialled over insecure `ws://`. -/
theorem c6_amended_https_enforcement (target : String) (req : ProxyReq) :
    (∀ url, handle_request target req = .httpForward url →
       strStartsWith url "https://" = true) ∧
    (req.path ≠ "/_health" → is_websocket_request req = false →
       strStartsWith (target ++ req.path ++ queryStr req.query)
         "https://" = false →
       handle_request target req = .reject500) ∧
    (strStartsWith target "https://" = true → ∀ p q,
       ws_target_url target p q =
         "wss://" ++ strDrop target 8 ++ p ++ q) := by
  refine ⟨?_, ?_, ?_⟩
  · intro url h
    simp only [handle_request] at h
    split at h
    · exact absurd h (by simp)
    · split at h
      · exact absurd h (by simp)
      · split at h
        · exact absurd h (by simp)
        · rename_i hc
          injection h with h
          subst h
          simpa using hc
  · intro hp hw hs
    unfold handle_request
    rw [if_neg hp]
    simp [hw, hs]
  · intro ht p q
    simp [ws_target_url, ht]

/-- Witness for the amended C6 at concrete requests. -/
theorem c6_amended_https_enforcement_witness :
    strStartsWith "https://up.example/a" "https://" = true ∧
    handle_request "ftp://x" reqPlainX = .reject500 ∧
    ws_target_url "https://up.example" "/ws" "" =
      "wss://" ++ strDrop "https://up.example" 8 ++ "/ws" ++ "" :=
  ⟨(c6_amended_https_enforcement "https://up.example" reqPlainX).1
     "https://up.example/a" (by decide),
   (c6_amended_https_enforcement "ftp://x" reqPlainX).2.1
     (by decide) (by decide) (by decide),
   (c6_amended_https_enforcement "https://up.example" reqPlainX).2.2
     (by decide) "/ws" ""⟩

/-- Counterexample to C6 as stated: the target `HTTPS://up.example.com`
is accepted by `set_proxy_target` (so it is a reachable stored target),
yet a WebSocket request under it is forwarded to an upstream URL with
the insecure `ws://` scheme. -/
theorem c6_counterexample :
    set_proxy_target "HTTPS://up.example.com" stX =
      .ok { stX with target := "HTTPS://up.example.com" } ∧
    handle_request "HTTPS://up.example.com" reqWsX =
      .wsForward "ws://HTTPS://up.example.com/ws" ∧
    strStartsWith "ws://HTTPS://up.example.com/ws" "wss://" = false := by
  refine ⟨by rfl, by decide, by decide⟩

/-- Every exit of the `stop_api` wait loop reports the same single
signalled PID. -/
lemma stop_api_wait_signaled (cfg : SvcConfig) (env : Env)
    (pf0 : Option String) (pid : Int) (sr : Bool) :
    ∀ fuel attempt,
      (stop_api_wait cfg env pf0 pid sr fuel attempt).signaled = [pid] := by
  intro fuel
  induction fuel with
  | zero => intro attempt; rfl
  | succ n ih =>
      intro attempt
      simp only [stop_api_wait]
      split
      · rfl
      · split
        · rfl
        · exact ih (attempt + 1)

/-- The PID a status check reports is exactly the parsed PID file. -/
lemma check_api_status_pid (cfg : SvcConfig) (w : SvcWorld) :
    (check_api_status cfg w).1.pid = get_pid w := by
  cases hg : get_pid w with
  | none => simp [check_api_status, hg]
  | some p =>
      simp only [check_api_status, hg]
      split <;> rfl

/-- Amended C1: `stop_bui` behaves as claimed — it signals every
process matching the binary name, removes the PID file unconditionally,
and returns true only when no matching process remains after the
settling delay — whereas `stop_api` signals at most the single PID
recorded in the PID file. -/
theorem c1_amended_stop (cfg : SvcConfig) (env : Env)
    (pf0 : Option String) :
    (stop_bui env pf0).signaled = env.namedAt 0 ∧
    (stop_bui env pf0).pidFile = none ∧
    ((stop_bui env pf0).result = false ∨
      (stop_bui env pf0).remaining = []) ∧
    ((stop_api cfg env pf0).signaled = (pidOfFile pf0).toList ∨
      (stop_api cfg env pf0).signaled = []) := by
  refine ⟨?_, ?_, ?_, ?_⟩
  · simp only [stop_bui]
    split <;> rfl
  · simp only [stop_bui]
    split <;> rfl
  · simp only [stop_bui]
    split
    · rename_i he
      right
      simpa using List.isEmpty_iff.mp he
    · cases hr : (env.namedAt
          ((stop_bui_terminate env (env.namedAt 0) 0 true).2 + 1)).isEmpty
      · left
        simp [hr]
      · right
        simpa using List.isEmpty_iff.mp hr
  · simp only [stop_api]
    split
    · right; rfl
    · cases hst : (check_api_status cfg (mkWorld env 0 pf0)).1.pid with
      | none => right; simp [hst]
      | some p =>
          left
          have hpf : pidOfFile pf0 = some p := by
            have hq := check_api_status_pid cfg (mkWorld env 0 pf0)
            rw [hst] at hq
            exact hq.symm
          rw [hpf]
          simp [hst, stop_api_wait_signaled]

/-- Counterexample to C1 as stated, for the API service: with processes
10 and 20 both matching the binary name, the PID file naming 10, the
service responding and no process ever exiting, `stop_api` signals only
PID 10, leaves the PID file in place although termination was
attempted, and returns `true` even though matching processes remain
after the wait. -/
theorem c1_counterexample :
    stop_api cfgX envStuck (some "10") =
      { result := true, pidFile := some "10", signaled := [10] } ∧
    envStuck.namedAt 11 = [10, 20] := by
  refine ⟨by decide, by decide⟩
